import Mathlib

/-!
Verification development for the MediVault repository.

Part 1 models the seven-layer clinical anomaly-detection engine.  The
engine source (anomaly_detection_agent.py) is not part of the snapshot,
so the engine is modelled from the specification: data model from spec
paragraph 3, layer evaluators from paragraph 4.2, severity aggregation from
paragraph 4.3, orchestration and validation from paragraphs 4.1, 6 and 7.

Part 2 embeds code that is present in the snapshot: the IndexedDB cache
service (frontend_figma/src/services/cache.ts) and the patient dashboard
severity helpers (the Dashboard component).
-/

namespace MediVault

/-- Modelled from the spec: the confidence enumeration of a LayerFinding
(spec paragraph 3). -/
inductive Confidence where
  | high
  | low
  | insufficient_data
deriving DecidableEq

/-- Modelled from the spec: a raw reading value as produced by the external
normalization collaborator; it is either a number or a non-numeric value
such as NaN (spec paragraph 7, InvalidReading). -/
inductive RawValue where
  | nan
  | num (q : ℚ)
deriving DecidableEq

/-- Numeric view of a raw value; NaN is mapped to 0 but the orchestrator
rejects NaN before any evaluator ever reads it. -/
def RawValue.toRat : RawValue → ℚ
  | .nan => 0
  | .num q => q

/-- Modelled from the spec: BiomarkerReading (spec paragraph 3). -/
structure BiomarkerReading where
  biomarker_type : String
  value : RawValue
  unit : String
  measured_at : ℕ
deriving DecidableEq

/-- Modelled from the spec: one age bracket of a ReferenceRange. -/
structure AgeBracket where
  min_age : ℚ
  max_age : ℚ
  normal_min : ℚ
  normal_max : ℚ
deriving DecidableEq

/-- Modelled from the spec: one condition-based override of a
ReferenceRange. -/
structure ConditionAdjustment where
  condition_name : String
  normal_min : ℚ
  normal_max : ℚ
deriving DecidableEq

/-- Modelled from the spec: ReferenceRange (spec paragraph 3). -/
structure ReferenceRange where
  biomarker_type : String
  unit : String
  normal_min : ℚ
  normal_max : ℚ
  critical_low : ℚ
  critical_high : ℚ
  age_brackets : List AgeBracket
  condition_adjustments : List ConditionAdjustment
deriving DecidableEq

/-- Modelled from the spec: the patient part of an EvaluationRequest
(spec paragraph 6). -/
structure PatientInfo where
  age : Option ℚ
  active_conditions : List String
  active_medications : List String
deriving DecidableEq

/-- Modelled from the spec: EvaluationRequest (spec paragraph 6); the
history map is an association list from biomarker type to its ordered
history. -/
structure EvaluationRequest where
  patient : PatientInfo
  current_readings : List BiomarkerReading
  history : List (String × List BiomarkerReading)
deriving DecidableEq

/-- Modelled from the spec: LayerFinding (spec paragraph 3). -/
structure LayerFinding where
  layer_id : ℕ
  title : String
  severity : ℕ
  is_critical : Bool
  affected_biomarker : Option String
  message : String
  recommendation : Option String
  confidence : Confidence
deriving DecidableEq

/-- Modelled from the spec: AnomalyReport (spec paragraphs 3 and 6). -/
structure AnomalyReport where
  overall_severity : ℕ
  has_critical_alerts : Bool
  findings : List LayerFinding
  priority_actions : List String
deriving DecidableEq

/-- Modelled from the spec: one medication-biomarker interaction entry of
the configuration table consulted by the Medication-Context layer
(spec paragraph 4.2, layer 4). An expected effect of true means the
medication is expected to lower the biomarker, false that it is expected
to raise it. -/
structure MedInteraction where
  medication : String
  biomarker : String
  lowers : Bool
deriving DecidableEq

/-- Modelled from the spec: one disease signature of the Comorbidity
Pattern table (spec paragraph 4.2, layer 6). -/
structure DiseaseSignature where
  name : String
  required_abnormal : List String
  required_conditions : List String
deriving DecidableEq

/-- Modelled from the spec: the configuration parameters the spec leaves
open (trend threshold, coverage threshold, interaction and signature
tables, and the set of biomarkers that are concentrations and hence must
be nonnegative). -/
structure EngineConfig where
  trend_threshold : ℚ
  coverage_threshold : ℚ
  med_interactions : List MedInteraction
  signatures : List DiseaseSignature
  concentration_biomarkers : List String
deriving DecidableEq

/-- Modelled from the spec: the engine error taxonomy surfaced to the
caller (spec paragraph 7); only malformed input is a hard error. -/
inductive EngineError where
  | invalidReading (b : BiomarkerReading)
deriving DecidableEq

deriving instance DecidableEq for Except

/-! ### Reference Range Repository (spec paragraph 4.1) -/

/-- Modelled from the spec: raw repository lookup by biomarker type; a
missing entry is NotFound, rendered here as none. -/
def findEntry (repo : List ReferenceRange) (bt : String) : Option ReferenceRange :=
  repo.find? (fun e => e.biomarker_type = bt)

/-- Pick the narrower of two age brackets. -/
def narrowerBracket (a b : AgeBracket) : AgeBracket :=
  if b.max_age - b.min_age < a.max_age - a.min_age then b else a

/-- Modelled from the spec: the narrowest age bracket matching the given
age (spec paragraph 4.1, resolution step b). -/
def narrowestBracket (age : ℚ) (brs : List AgeBracket) : Option AgeBracket :=
  match brs.filter (fun br => decide (br.min_age ≤ age ∧ age ≤ br.max_age)) with
  | [] => none
  | b :: rest => some (rest.foldl narrowerBracket b)

/-- A reference range after resolution against a patient context: the
normal band after condition and age resolution together with the critical
bounds of the entry. -/
structure ResolvedRange where
  normal_min : ℚ
  normal_max : ℚ
  critical_low : ℚ
  critical_high : ℚ
deriving DecidableEq

/-- Modelled from the spec: resolution order of paragraph 4.1 - condition
override first, else the narrowest matching age bracket, else the default
normal band. -/
def resolveFor (p : PatientInfo) (e : ReferenceRange) : ResolvedRange :=
  match e.condition_adjustments.find? (fun c => p.active_conditions.contains c.condition_name) with
  | some c => ⟨c.normal_min, c.normal_max, e.critical_low, e.critical_high⟩
  | none =>
    match p.age with
    | some a =>
      match narrowestBracket a e.age_brackets with
      | some br => ⟨br.normal_min, br.normal_max, e.critical_low, e.critical_high⟩
      | none => ⟨e.normal_min, e.normal_max, e.critical_low, e.critical_high⟩
    | none => ⟨e.normal_min, e.normal_max, e.critical_low, e.critical_high⟩

/-- Modelled from the spec: the repository lookup contract of paragraph
4.1; none is the NotFound outcome. -/
def lookupRange (repo : List ReferenceRange) (p : PatientInfo) (bt : String) :
    Option ResolvedRange :=
  (findEntry repo bt).map (resolveFor p)

/-! ### Severity scaling -/

/-- Modelled from the spec: the Range Check severity formula
min(100, round(100 * excess / band_width)) of spec paragraph 4.2 layer 1. -/
def scaledSeverity (excess band : ℚ) : ℕ :=
  min 100 (round (100 * excess / band)).toNat

/-- Modelled from the spec: the Critical Value severity, a value in
[85, 100] scaled by how far past the critical boundary the reading lies
(spec paragraph 4.2 layer 2), normalized against the normal band width. -/
def criticalScaled (excess band : ℚ) : ℕ :=
  85 + min 15 (round (15 * excess / band)).toNat

/-! ### Layer evaluators (spec paragraph 4.2) -/

/-- Modelled from the spec: layer 1, Range Check. No finding if the range
is unknown or the value is inside the normal band; otherwise the severity
is scaledSeverity of the distance past the violated boundary. -/
def rangeCheck (rng : Option ResolvedRange) (b : BiomarkerReading) : List LayerFinding :=
  match rng with
  | none => []
  | some r =>
    let v := b.value.toRat
    if v < r.normal_min then
      [{ layer_id := 1, title := "Below normal range",
         severity := scaledSeverity (r.normal_min - v) (r.normal_max - r.normal_min),
         is_critical := false, affected_biomarker := some b.biomarker_type,
         message := "Value is below the normal range",
         recommendation := some "Discuss this result with your physician",
         confidence := .high }]
    else if r.normal_max < v then
      [{ layer_id := 1, title := "Above normal range",
         severity := scaledSeverity (v - r.normal_max) (r.normal_max - r.normal_min),
         is_critical := false, affected_biomarker := some b.biomarker_type,
         message := "Value is above the normal range",
         recommendation := some "Discuss this result with your physician",
         confidence := .high }]
    else []

/-- Modelled from the spec: layer 2, Critical Value Detection. Fires with
is_critical when the value is outside the critical bounds, independent of
the Range Check outcome. -/
def criticalValue (rng : Option ResolvedRange) (b : BiomarkerReading) : List LayerFinding :=
  match rng with
  | none => []
  | some r =>
    let v := b.value.toRat
    if v < r.critical_low then
      [{ layer_id := 2, title := "Critical low value",
         severity := criticalScaled (r.critical_low - v) (r.normal_max - r.normal_min),
         is_critical := true, affected_biomarker := some b.biomarker_type,
         message := "Value is below the critical threshold",
         recommendation := some "Seek immediate medical attention",
         confidence := .high }]
    else if r.critical_high < v then
      [{ layer_id := 2, title := "Critical high value",
         severity := criticalScaled (v - r.critical_high) (r.normal_max - r.normal_min),
         is_critical := true, affected_biomarker := some b.biomarker_type,
         message := "Value is above the critical threshold",
         recommendation := some "Seek immediate medical attention",
         confidence := .high }]
    else []

/-- Modelled from the spec: layer 3, Age-Adjusted Range. Emits a finding
when the age-adjusted band differs from the default band and exactly one
of the two bands contains the value, with severity derived as in layer 1
but against the adjusted band. -/
def ageAdjusted (entry : Option ReferenceRange) (age : Option ℚ) (b : BiomarkerReading) :
    List LayerFinding :=
  match entry, age with
  | some e, some a =>
    (match narrowestBracket a e.age_brackets with
    | some br =>
      let v := b.value.toRat
      let insideDefault : Bool := decide (e.normal_min ≤ v ∧ v ≤ e.normal_max)
      let insideAdjusted : Bool := decide (br.normal_min ≤ v ∧ v ≤ br.normal_max)
      let excess : ℚ :=
        if v < br.normal_min then br.normal_min - v
        else if br.normal_max < v then v - br.normal_max
        else 0
      if (br.normal_min ≠ e.normal_min ∨ br.normal_max ≠ e.normal_max) ∧
          insideDefault ≠ insideAdjusted then
        [{ layer_id := 3, title := "Age-adjusted range discrepancy",
           severity := scaledSeverity excess (br.normal_max - br.normal_min),
           is_critical := false, affected_biomarker := some b.biomarker_type,
           message := "Interpretation differs under the age-adjusted range",
           recommendation := some "Interpret against age-specific reference values",
           confidence := .high }]
      else []
    | none => [])
  | _, _ => []

/-- Modelled from the spec: layer 4, Medication-Context. For each active
medication interacting with this biomarker, emits at most one finding per
biomarker-medication pair: up-weighted relative to layer 1 when the value
is abnormal despite a medication expected to normalize it, down-weighted
when the medication explains the deviation. -/
def medicationContext (cfg : EngineConfig) (rng : Option ResolvedRange)
    (p : PatientInfo) (b : BiomarkerReading) : List LayerFinding :=
  match rng with
  | none => []
  | some r =>
    let v := b.value.toRat
    if r.normal_min ≤ v ∧ v ≤ r.normal_max then []
    else
      (cfg.med_interactions.filter
        (fun m => m.biomarker = b.biomarker_type &&
          p.active_medications.contains m.medication)).map
        (fun m =>
          let excess : ℚ := if v < r.normal_min then r.normal_min - v else v - r.normal_max
          let base := scaledSeverity excess (r.normal_max - r.normal_min)
          let expectedToNormalize : Bool :=
            (m.lowers && decide (r.normal_max < v)) || (!m.lowers && decide (v < r.normal_min))
          { layer_id := 4, title := "Medication context",
            severity := if expectedToNormalize then min 100 (base + 10) else base / 2,
            is_critical := false, affected_biomarker := some b.biomarker_type,
            message := "Reading interpreted in the context of an active medication",
            recommendation := some "Review medication effectiveness with your physician",
            confidence := .low })

/-- Percent change between two values; zero when the base value is zero. -/
def percentChange (a b : ℚ) : ℚ :=
  if a = 0 then 0 else (b - a) / a * 100

/-- Modelled from the spec: layer 5, Trend Analysis. With at least two
historical points it compares the percent change over the window against
the configured deterioration threshold; with fewer points it abstains. -/
def trendAnalysis (cfg : EngineConfig) (hist : List BiomarkerReading)
    (b : BiomarkerReading) : List LayerFinding :=
  match hist.map (fun h => h.value.toRat) with
  | v0 :: v1 :: rest =>
    let lastv := rest.foldl (fun _ x => x) v1
    let pc := percentChange v0 lastv
    if cfg.trend_threshold ≤ pc then
      [{ layer_id := 5, title := "Deteriorating trend",
         severity := min 100 (round pc).toNat,
         is_critical := false, affected_biomarker := some b.biomarker_type,
         message := "Values are deteriorating across the recorded history",
         recommendation := some "Monitor this biomarker closely",
         confidence := .high }]
    else []
  | _ => []

/-- Abnormal biomarkers of one evaluation: the biomarkers affected by
findings of layers 1 to 3, as consumed by the Comorbidity layer. -/
def abnormalBiomarkers (fs : List LayerFinding) : List String :=
  (fs.filter (fun f => f.layer_id ≤ 3)).filterMap (fun f => f.affected_biomarker)

/-- Modelled from the spec: coverage of a disease signature by the set of
abnormal biomarkers plus active conditions (spec paragraph 4.2 layer 6). -/
def coverage (sig : DiseaseSignature) (abnormal conds : List String) : ℚ :=
  let total := sig.required_abnormal.length + sig.required_conditions.length
  if total = 0 then 0
  else (((sig.required_abnormal.filter (fun x => abnormal.contains x)).length +
         (sig.required_conditions.filter (fun x => conds.contains x)).length : ℕ) : ℚ) / total

/-- Modelled from the spec: layer 6, Comorbidity Pattern. One finding per
signature whose coverage reaches the configured threshold, with severity
proportional to coverage. -/
def comorbidityLayer (cfg : EngineConfig) (conds abnormal : List String) :
    List LayerFinding :=
  (cfg.signatures.filter
    (fun s => decide (cfg.coverage_threshold ≤ coverage s abnormal conds))).map
    (fun s =>
      { layer_id := 6, title := s.name,
        severity := min 100 (round (100 * coverage s abnormal conds)).toNat,
        is_critical := false, affected_biomarker := none,
        message := "Combination of abnormal signals matches a known pattern",
        recommendation := none,
        confidence := .low })

/-! ### Severity Aggregator (spec paragraph 4.3) -/

/-- Modelled from the spec: the aggregation weight of a finding, 1.0 by
default but 1.5 for Trend (layer 5) and Comorbidity (layer 6) findings. -/
def findingWeight (f : LayerFinding) : ℚ :=
  if f.layer_id = 5 ∨ f.layer_id = 6 then 3 / 2 else 1

/-- Total aggregation weight of a list of findings. -/
def weightTotal (fs : List LayerFinding) : ℚ :=
  (fs.map findingWeight).sum

/-- Weighted sum of the severities of a list of findings. -/
def weightedSum (fs : List LayerFinding) : ℚ :=
  (fs.map (fun f => findingWeight f * (f.severity : ℚ))).sum

/-- The severities of the critical findings of a list. -/
def criticalSeverities (fs : List LayerFinding) : List ℕ :=
  (fs.filter (fun f => f.is_critical)).map (fun f => f.severity)

/-- Modelled from the spec: overall severity - the maximum critical
severity when any finding is critical, else the rounded weighted average
of all severities (spec paragraph 4.3). -/
def overallSeverity (fs : List LayerFinding) : ℕ :=
  if fs.any (fun f => f.is_critical) then (criticalSeverities fs).foldr max 0
  else (round (weightedSum fs / weightTotal fs)).toNat

/-- Modelled from the spec: the finding ordering of the report - severity
descending, ties broken by lower layer id first (spec paragraph 4.3). -/
def FindingOrder (f g : LayerFinding) : Prop :=
  g.severity < f.severity ∨ (f.severity = g.severity ∧ f.layer_id ≤ g.layer_id)

instance : DecidableRel FindingOrder := fun f g =>
  decidable_of_iff
    (g.severity < f.severity ∨ (f.severity = g.severity ∧ f.layer_id ≤ g.layer_id)) Iff.rfl

instance : IsTotal LayerFinding FindingOrder :=
  ⟨fun f g => by unfold FindingOrder; omega⟩

instance : IsTrans LayerFinding FindingOrder :=
  ⟨fun f g h hfg hgh => by
    unfold FindingOrder at hfg hgh ⊢
    omega⟩

/-- Sort findings by severity descending, ties by lower layer id first. -/
def sortFindings (fs : List LayerFinding) : List LayerFinding :=
  List.insertionSort FindingOrder fs

/-- Deduplicate by exact text match, keeping the first occurrence. -/
def dedupKeepFirst (l : List String) : List String :=
  l.foldl (fun acc x => if acc.contains x then acc else acc ++ [x]) []

/-- Modelled from the spec: the Severity Aggregator of paragraph 4.3.  It
never discards a finding: the report carries a permutation of the input
findings, sorted for presentation. -/
def aggregate (fs : List LayerFinding) : AnomalyReport :=
  let sorted := sortFindings fs
  { overall_severity := overallSeverity fs
    has_critical_alerts := fs.any (fun f => f.is_critical)
    findings := sorted
    priority_actions := dedupKeepFirst (sorted.filterMap (fun f => f.recommendation)) }

/-! ### Evaluation Orchestrator (spec paragraphs 4.2, 6, 7) -/

/-- Modelled from the spec: a reading is invalid when its value is
non-numeric or a negative concentration (spec paragraph 7,
InvalidReading). -/
def isInvalidReading (cfg : EngineConfig) (b : BiomarkerReading) : Bool :=
  match b.value with
  | .nan => true
  | .num q => decide (q < 0) && cfg.concentration_biomarkers.contains b.biomarker_type

/-- History of one biomarker type in a request. -/
def histFor (req : EvaluationRequest) (bt : String) : List BiomarkerReading :=
  match req.history.find? (fun p => p.1 = bt) with
  | some p => p.2
  | none => []

/-- All findings of layers 1 to 5 for one reading. -/
def readingFindings (cfg : EngineConfig) (repo : List ReferenceRange)
    (req : EvaluationRequest) (b : BiomarkerReading) : List LayerFinding :=
  let entry := findEntry repo b.biomarker_type
  let rng := entry.map (resolveFor req.patient)
  rangeCheck rng b ++ criticalValue rng b ++ ageAdjusted entry req.patient.age b ++
    medicationContext cfg rng req.patient b ++
    trendAnalysis cfg (histFor req b.biomarker_type) b

/-- All findings of one evaluation: the per-reading findings of layers
1 to 5 plus the Comorbidity findings over the abnormal set. -/
def allFindings (cfg : EngineConfig) (repo : List ReferenceRange)
    (req : EvaluationRequest) : List LayerFinding :=
  let base := (req.current_readings.map (readingFindings cfg repo req)).flatten
  base ++ comorbidityLayer cfg req.patient.active_conditions (abnormalBiomarkers base)

/-- Modelled from the spec: the Evaluation Orchestrator. Validation runs
first: a request containing an invalid reading is rejected whole, before
any evaluator runs; otherwise every layer runs and the aggregated report
is returned (spec paragraphs 4.3, 6 and 7). -/
def evaluate (cfg : EngineConfig) (repo : List ReferenceRange)
    (req : EvaluationRequest) : Except EngineError AnomalyReport :=
  match req.current_readings.find? (fun b => isInvalidReading cfg b) with
  | some b => .error (.invalidReading b)
  | none => .ok (aggregate (allFindings cfg repo req))

/-- Modelled from the spec: the biomarkers for which the evaluation
records insufficient reference data (spec paragraph 7,
MissingReferenceData). -/
def insufficientDataBiomarkers (repo : List ReferenceRange)
    (req : EvaluationRequest) : List String :=
  (req.current_readings.filter
    (fun b => (findEntry repo b.biomarker_type).isNone)).map
    (fun b => b.biomarker_type)

/-! ### Determinism model (spec paragraphs 4.3 and 5) -/

/-- An ambient world: a clock and a pseudo-random seed, the two sources of
nondeterminism the spec rules out of the engine. -/
structure World where
  clock : ℕ
  rng_seed : ℕ
deriving DecidableEq

/-- A linear congruential step standing for whatever randomness the
ambient process carries. -/
def rngNext (s : ℕ) : ℕ :=
  (s * 1664525 + 1013904223) % 4294967296

/-- Modelled from the spec: running one evaluation inside an ambient
world. The world moves on, but the engine - a pure transformation - never
reads it (spec paragraph 4.3, state machine: none). -/
def evaluateInWorld (cfg : EngineConfig) (repo : List ReferenceRange)
    (req : EvaluationRequest) (w : World) :
    Except EngineError AnomalyReport × World :=
  (evaluate cfg repo req, ⟨w.clock + 1, rngNext w.rng_seed⟩)

/-! ### Cache service (frontend_figma/src/services/cache.ts) -/

/-- One IndexedDB cache entry, as in the CacheEntry interface of
cache.ts: the stored data, the write timestamp, and an optional absolute
expiry time. -/
structure CacheEntry (α : Type) where
  key : String
  data : α
  timestamp : ℕ
  expiresAt : Option ℕ

/-- The state of the IndexedDB cache: a map from store name and key to
the entry stored there, if any. -/
def CacheState (α : Type) := String → String → Option (CacheEntry α)

/-- The empty cache. -/
def emptyCache (α : Type) : CacheState α := fun _ _ => none

/-- isExpired of cache.ts: an entry without expiresAt never expires (the
JavaScript test is on falsiness of expiresAt); otherwise it is expired
once the current time strictly exceeds expiresAt. -/
def isExpired {α : Type} (now : ℕ) (e : CacheEntry α) : Bool :=
  match e.expiresAt with
  | none => false
  | some t => decide (t < now)

/-- delete of cache.ts: remove the entry at one store and key. -/
def cacheDelete {α : Type} (s : CacheState α) (storeName key : String) : CacheState α :=
  fun st k => if st = storeName ∧ k = key then none else s st k

/-- The IDBObjectStore put step of cache.ts set: insert or replace the
entry at its key. -/
def cachePut {α : Type} (s : CacheState α) (storeName key : String)
    (e : CacheEntry α) : CacheState α :=
  fun st k => if st = storeName ∧ k = key then some e else s st k

/-- The expiresAt computation of cache.ts set: options.ttl is tested for
JavaScript truthiness, so an absent or zero ttl leaves expiresAt
undefined; otherwise expiresAt is now plus ttl. -/
def mkExpiresAt (now : ℕ) (ttl : Option ℕ) : Option ℕ :=
  match ttl with
  | some t => if t = 0 then none else some (now + t)
  | none => none

/-- set of cache.ts: store the data under the key with the computed
expiry. -/
def cacheSet {α : Type} (s : CacheState α) (storeName key : String) (d : α)
    (now : ℕ) (ttl : Option ℕ) : CacheState α :=
  cachePut s storeName key ⟨key, d, now, mkExpiresAt now ttl⟩

/-- get of cache.ts: a missing entry yields null; an expired entry is
deleted and yields null; otherwise the stored data is returned.  The
result pairs the returned value with the cache state after the call. -/
def cacheGet {α : Type} (s : CacheState α) (storeName key : String) (now : ℕ) :
    Option α × CacheState α :=
  match s storeName key with
  | none => (none, s)
  | some e =>
    if isExpired now e then (none, cacheDelete s storeName key)
    else (some e.data, s)

/-! ### Patient dashboard helpers (the Dashboard component) -/

/-- The status union type of the StatusBadge component. -/
inductive Status where
  | normal
  | moderate
  | high
deriving DecidableEq

/-- getStatusFromSeverity of the Dashboard component: high from severity
80 up, moderate from 50 up, normal below 50. -/
def getStatusFromSeverity (severity : ℚ) : Status :=
  if 80 ≤ severity then .high
  else if 50 ≤ severity then .moderate
  else .normal

/-- The status the Dashboard alert rendering passes to StatusBadge for an
anomaly: high when is_critical or severity at least 80, moderate from 50,
else normal (the same condition selects the danger styling and icon). -/
def alertStatus (is_critical : Bool) (severity : ℚ) : Status :=
  if is_critical = true ∨ 80 ≤ severity then .high
  else if 50 ≤ severity then .moderate
  else .normal

/-! ### Concrete instances used by witnesses and counterexamples -/

/-- A configuration with empty interaction and signature tables. -/
def cfgW : EngineConfig :=
  { trend_threshold := 20, coverage_threshold := 1,
    med_interactions := [], signatures := [],
    concentration_biomarkers := ["glucose"] }

/-- A one-entry repository: glucose, normal band 70 to 100, critical
bounds 40 and 300 (the spec paragraph 8 glucose scenario). -/
def repoW : List ReferenceRange :=
  [{ biomarker_type := "glucose", unit := "mg/dL",
     normal_min := 70, normal_max := 100,
     critical_low := 40, critical_high := 300,
     age_brackets := [], condition_adjustments := [] }]

/-- A patient context with no age, conditions or medications. -/
def patientW : PatientInfo :=
  { age := none, active_conditions := [], active_medications := [] }

/-- A request with a single glucose reading of 400 (critical). -/
def reqCritical : EvaluationRequest :=
  { patient := patientW,
    current_readings := [⟨"glucose", .num 400, "mg/dL", 0⟩],
    history := [] }

/-- A request with a single glucose reading of 90 (normal). -/
def reqNormal : EvaluationRequest :=
  { patient := patientW,
    current_readings := [⟨"glucose", .num 90, "mg/dL", 0⟩],
    history := [] }

/-- A request carrying a NaN glucose reading. -/
def reqNan : EvaluationRequest :=
  { patient := patientW,
    current_readings := [⟨"glucose", .nan, "mg/dL", 0⟩],
    history := [] }

/-- A request carrying a reading of an unknown biomarker type. -/
def reqUnknown : EvaluationRequest :=
  { patient := patientW,
    current_readings := [⟨"xyz_marker", .num 5, "units", 0⟩],
    history := [] }

/-- A repository for the monotonicity counterexample: normal band 0 to
10, critical bounds far below and at 100. -/
def repoM : List ReferenceRange :=
  [{ biomarker_type := "marker_a", unit := "u",
     normal_min := 0, normal_max := 10,
     critical_low := -1000, critical_high := 100,
     age_brackets := [], condition_adjustments := [] }]

/-- Monotonicity counterexample, first request: value 50, well past the
normal band but below the critical bound. -/
def reqM1 : EvaluationRequest :=
  { patient := patientW,
    current_readings := [⟨"marker_a", .num 50, "u", 0⟩],
    history := [] }

/-- Monotonicity counterexample, second request: the same reading moved
to 101, just past the critical bound. -/
def reqM2 : EvaluationRequest :=
  { patient := patientW,
    current_readings := [⟨"marker_a", .num 101, "u", 0⟩],
    history := [] }

/-- Severity contributed by the Range Check layer for one reading: the
sum of the severities of its findings (zero or one finding). -/
def rangeSeverity (rng : Option ResolvedRange) (b : BiomarkerReading) : ℕ :=
  ((rangeCheck rng b).map (fun f => f.severity)).sum

/-! ### Helper lemmas -/

theorem foldr_max_append (l r : List ℕ) :
    (l ++ r).foldr max 0 = max (l.foldr max 0) (r.foldr max 0) := by
  induction l with
  | nil => simp
  | cons a t ih => simp [ih, Nat.max_assoc]

theorem le_foldr_max {a : ℕ} {l : List ℕ} (h : a ∈ l) : a ≤ l.foldr max 0 := by
  induction l with
  | nil => cases h
  | cons b t ih =>
    rcases List.mem_cons.mp h with rfl | h2
    · exact Nat.le_max_left _ _
    · exact le_trans (ih h2) (Nat.le_max_right _ _)

theorem foldr_max_mem {l : List ℕ} (h : l ≠ []) : l.foldr max 0 ∈ l := by
  induction l with
  | nil => exact absurd rfl h
  | cons a t ih =>
    cases t with
    | nil => simp
    | cons b t2 =>
      rcases max_choice a ((b :: t2).foldr max 0) with h1 | h1
      · simp only [List.foldr_cons] at h1 ⊢
        rw [h1]
        exact List.mem_cons_self _ _
      · simp only [List.foldr_cons] at h1 ⊢
        rw [h1]
        exact List.mem_cons_of_mem _ (ih (by simp))

theorem round_mono_rat {a b : ℚ} (h : a ≤ b) : round a ≤ round b := by
  rw [round_eq, round_eq]
  exact Int.floor_le_floor (by linarith)

theorem round_nonneg_rat {a : ℚ} (h : 0 ≤ a) : 0 ≤ round a := by
  rw [round_eq]
  exact Int.le_floor.mpr (by push_cast; linarith)

theorem scaledSeverity_cast {e b : ℚ} (he : 0 ≤ e) (hb : 0 < b) :
    ((scaledSeverity e b : ℕ) : ℤ) = min 100 (round (100 * e / b)) := by
  unfold scaledSeverity
  have h0 : 0 ≤ round (100 * e / b) :=
    round_nonneg_rat (div_nonneg (mul_nonneg (by norm_num) he) hb.le)
  push_cast [Int.toNat_of_nonneg h0]
  rfl

theorem scaledSeverity_mono {e1 e2 b : ℚ} (hb : 0 < b) (h : e1 ≤ e2) :
    scaledSeverity e1 b ≤ scaledSeverity e2 b := by
  unfold scaledSeverity
  have hdiv : 100 * e1 / b ≤ 100 * e2 / b := by
    apply div_le_div_of_nonneg_right ?_ hb.le
    linarith
  exact min_le_min (le_refl _) (Int.toNat_le_toNat (round_mono_rat hdiv))

theorem criticalScaled_ge_85 (e b : ℚ) : 85 ≤ criticalScaled e b := by
  unfold criticalScaled
  omega

theorem criticalScaled_le_100 (e b : ℚ) : criticalScaled e b ≤ 100 := by
  unfold criticalScaled
  have : min 15 (round (15 * e / b)).toNat ≤ 15 := min_le_left _ _
  omega

theorem one_le_findingWeight (f : LayerFinding) : 1 ≤ findingWeight f := by
  unfold findingWeight
  split <;> norm_num

theorem findingWeight_nonneg (f : LayerFinding) : 0 ≤ findingWeight f :=
  le_trans zero_le_one (one_le_findingWeight f)

theorem weightTotal_nonneg (fs : List LayerFinding) : 0 ≤ weightTotal fs :=
  List.sum_nonneg (by
    intro x hx
    obtain ⟨f, _, rfl⟩ := List.mem_map.mp hx
    exact findingWeight_nonneg f)

theorem weightedSum_nonneg (fs : List LayerFinding) : 0 ≤ weightedSum fs :=
  List.sum_nonneg (by
    intro x hx
    obtain ⟨f, _, rfl⟩ := List.mem_map.mp hx
    exact mul_nonneg (findingWeight_nonneg f) (by positivity))

theorem weightTotal_append (l r : List LayerFinding) :
    weightTotal (l ++ r) = weightTotal l + weightTotal r := by
  simp [weightTotal]

theorem weightTotal_cons (f : LayerFinding) (r : List LayerFinding) :
    weightTotal (f :: r) = findingWeight f + weightTotal r := by
  simp [weightTotal]

theorem weightedSum_append (l r : List LayerFinding) :
    weightedSum (l ++ r) = weightedSum l + weightedSum r := by
  simp [weightedSum]

theorem weightedSum_cons (f : LayerFinding) (r : List LayerFinding) :
    weightedSum (f :: r) = findingWeight f * (f.severity : ℚ) + weightedSum r := by
  simp [weightedSum]

theorem criticalSeverities_append (l r : List LayerFinding) :
    criticalSeverities (l ++ r) = criticalSeverities l ++ criticalSeverities r := by
  simp [criticalSeverities]

theorem criticalSeverities_cons (f : LayerFinding) (r : List LayerFinding) :
    criticalSeverities (f :: r) =
      (if f.is_critical then [f.severity] else []) ++ criticalSeverities r := by
  simp only [criticalSeverities, List.filter_cons]
  split <;> simp_all

theorem mem_aggregate_findings {f : LayerFinding} {fs : List LayerFinding} :
    f ∈ (aggregate fs).findings ↔ f ∈ fs := by
  simp [aggregate, sortFindings, List.mem_insertionSort]

theorem severity_mem_criticalSeverities {f : LayerFinding} {fs : List LayerFinding}
    (hm : f ∈ fs) (hc : f.is_critical = true) : f.severity ∈ criticalSeverities fs :=
  List.mem_map.mpr ⟨f, List.mem_filter.mpr ⟨hm, by simp [hc]⟩, rfl⟩

theorem overall_ge_of_critical_mem {f : LayerFinding} {fs : List LayerFinding}
    (hm : f ∈ fs) (hc : f.is_critical = true) : f.severity ≤ overallSeverity fs := by
  unfold overallSeverity
  rw [if_pos (List.any_eq_true.mpr ⟨f, hm, hc⟩)]
  exact le_foldr_max (severity_mem_criticalSeverities hm hc)

theorem evaluate_ok_inv {cfg : EngineConfig} {repo : List ReferenceRange}
    {req : EvaluationRequest} {rep : AnomalyReport}
    (h : evaluate cfg repo req = .ok rep) :
    rep = aggregate (allFindings cfg repo req) ∧
    req.current_readings.find? (fun b => isInvalidReading cfg b) = none := by
  unfold evaluate at h
  cases hf : req.current_readings.find? (fun b => isInvalidReading cfg b) with
  | some b => rw [hf] at h; cases h
  | none =>
    rw [hf] at h
    cases h
    exact ⟨rfl, rfl⟩

theorem layer_mem_allFindings {cfg : EngineConfig} {repo : List ReferenceRange}
    {req : EvaluationRequest} {b : BiomarkerReading} {f : LayerFinding}
    (hb : b ∈ req.current_readings)
    (hf : f ∈ readingFindings cfg repo req b) : f ∈ allFindings cfg repo req := by
  unfold allFindings
  apply List.mem_append_left
  exact List.mem_flatten.mpr ⟨readingFindings cfg repo req b, List.mem_map_of_mem _ hb, hf⟩

theorem rangeCheck_affected {rng : Option ResolvedRange} {b : BiomarkerReading}
    {f : LayerFinding} (h : f ∈ rangeCheck rng b) :
    f.affected_biomarker = some b.biomarker_type := by
  unfold rangeCheck at h
  cases rng with
  | none => cases h
  | some r =>
    simp only at h
    split at h
    · rw [List.mem_singleton.mp h]
    · split at h
      · rw [List.mem_singleton.mp h]
      · cases h

theorem criticalValue_affected {rng : Option ResolvedRange} {b : BiomarkerReading}
    {f : LayerFinding} (h : f ∈ criticalValue rng b) :
    f.affected_biomarker = some b.biomarker_type := by
  unfold criticalValue at h
  cases rng with
  | none => cases h
  | some r =>
    simp only at h
    split at h
    · rw [List.mem_singleton.mp h]
    · split at h
      · rw [List.mem_singleton.mp h]
      · cases h

theorem ageAdjusted_affected {entry : Option ReferenceRange} {age : Option ℚ}
    {b : BiomarkerReading} {f : LayerFinding} (h : f ∈ ageAdjusted entry age b) :
    f.affected_biomarker = some b.biomarker_type := by
  unfold ageAdjusted at h
  cases entry with
  | none => cases h
  | some e =>
    cases age with
    | none => cases h
    | some a =>
      dsimp only at h
      cases hbr : narrowestBracket a e.age_brackets with
      | none => rw [hbr] at h; cases h
      | some br =>
        rw [hbr] at h
        dsimp only at h
        split at h
        · rw [List.mem_singleton.mp h]
        · cases h

theorem medicationContext_affected {cfg : EngineConfig} {rng : Option ResolvedRange}
    {p : PatientInfo} {b : BiomarkerReading} {f : LayerFinding}
    (h : f ∈ medicationContext cfg rng p b) :
    f.affected_biomarker = some b.biomarker_type := by
  unfold medicationContext at h
  cases rng with
  | none => cases h
  | some r =>
    simp only at h
    split at h
    · cases h
    · obtain ⟨m, _, rfl⟩ := List.mem_map.mp h
      rfl

theorem trendAnalysis_shape {cfg : EngineConfig} {hist : List BiomarkerReading}
    {b : BiomarkerReading} {f : LayerFinding} (h : f ∈ trendAnalysis cfg hist b) :
    f.affected_biomarker = some b.biomarker_type ∧ f.layer_id = 5 := by
  unfold trendAnalysis at h
  split at h
  · dsimp only at h
    split at h
    · rw [List.mem_singleton.mp h]
      exact ⟨rfl, rfl⟩
    · cases h
  · cases h

theorem comorbidityLayer_shape {cfg : EngineConfig} {conds abnormal : List String}
    {f : LayerFinding} (h : f ∈ comorbidityLayer cfg conds abnormal) :
    f.affected_biomarker = none ∧ f.layer_id = 6 := by
  unfold comorbidityLayer at h
  obtain ⟨s, _, rfl⟩ := List.mem_map.mp h
  exact ⟨rfl, rfl⟩

theorem readingFindings_affected {cfg : EngineConfig} {repo : List ReferenceRange}
    {req : EvaluationRequest} {b : BiomarkerReading} {f : LayerFinding}
    (hf : f ∈ readingFindings cfg repo req b) :
    f.affected_biomarker = some b.biomarker_type := by
  unfold readingFindings at hf
  rcases List.mem_append.mp hf with h4 | h
  · rcases List.mem_append.mp h4 with h3 | h
    · rcases List.mem_append.mp h3 with h2 | h
      · rcases List.mem_append.mp h2 with h1 | h
        · exact rangeCheck_affected h1
        · exact criticalValue_affected h
      · exact ageAdjusted_affected h
    · exact medicationContext_affected h
  · exact (trendAnalysis_shape h).1

theorem readingFindings_of_noEntry {cfg : EngineConfig} {repo : List ReferenceRange}
    {req : EvaluationRequest} {b : BiomarkerReading} {f : LayerFinding}
    (hmiss : findEntry repo b.biomarker_type = none)
    (hf : f ∈ readingFindings cfg repo req b) : f.layer_id = 5 := by
  unfold readingFindings at hf
  rw [hmiss] at hf
  simp only [Option.map_none'] at hf
  have h1 : rangeCheck none b = [] := rfl
  have h2 : criticalValue none b = [] := rfl
  have h3 : ageAdjusted none req.patient.age b = [] := rfl
  have h4 : medicationContext cfg none req.patient b = [] := rfl
  rw [h1, h2, h3, h4] at hf
  simp only [List.nil_append] at hf
  exact (trendAnalysis_shape hf).2

/-! ### Claims -/

/-- C1: in every AnomalyReport an evaluation produces,
has_critical_alerts is true exactly when some LayerFinding of the report
is critical; and for every findings list whatsoever, aggregation yields a
report satisfying the same equivalence, so no aggregation step can change
it. -/
theorem C1_critical_flag_iff (cfg : EngineConfig) (repo : List ReferenceRange)
    (req : EvaluationRequest) (rep : AnomalyReport)
    (hok : evaluate cfg repo req = .ok rep) :
    (rep.has_critical_alerts = true ↔ ∃ f ∈ rep.findings, f.is_critical = true) ∧
    ∀ fs : List LayerFinding,
      ((aggregate fs).has_critical_alerts = true ↔ ∃ f ∈ fs, f.is_critical = true) := by
  have key : ∀ fs : List LayerFinding,
      ((aggregate fs).has_critical_alerts = true ↔ ∃ f ∈ fs, f.is_critical = true) := by
    intro fs
    show fs.any (fun f => f.is_critical) = true ↔ _
    exact List.any_eq_true
  obtain ⟨hrep, -⟩ := evaluate_ok_inv hok
  subst hrep
  refine ⟨?_, key⟩
  rw [key]
  constructor
  · rintro ⟨f, hm, hc⟩
    exact ⟨f, mem_aggregate_findings.mpr hm, hc⟩
  · rintro ⟨f, hm, hc⟩
    exact ⟨f, mem_aggregate_findings.mp hm, hc⟩

/-- The Range Check finding for the critical glucose request. -/
def fRangeHigh : LayerFinding :=
  { layer_id := 1, title := "Above normal range", severity := 100,
    is_critical := false, affected_biomarker := some "glucose",
    message := "Value is above the normal range",
    recommendation := some "Discuss this result with your physician",
    confidence := .high }

/-- The Critical Value finding for the critical glucose request. -/
def fCritHigh : LayerFinding :=
  { layer_id := 2, title := "Critical high value", severity := 100,
    is_critical := true, affected_biomarker := some "glucose",
    message := "Value is above the critical threshold",
    recommendation := some "Seek immediate medical attention",
    confidence := .high }

/-- The report the engine produces for the critical glucose request. -/
def repCritical : AnomalyReport :=
  { overall_severity := 100, has_critical_alerts := true,
    findings := [fRangeHigh, fCritHigh],
    priority_actions := ["Discuss this result with your physician",
                         "Seek immediate medical attention"] }

theorem evaluate_reqCritical : evaluate cfgW repoW reqCritical = .ok repCritical := by
  simp [evaluate, cfgW, repoW, reqCritical, patientW, isInvalidReading, allFindings,
    readingFindings, findEntry, resolveFor, rangeCheck, criticalValue, ageAdjusted,
    medicationContext, trendAnalysis, comorbidityLayer, abnormalBiomarkers, histFor,
    aggregate, overallSeverity, criticalSeverities, sortFindings, weightedSum,
    weightTotal, findingWeight, scaledSeverity, criticalScaled, RawValue.toRat,
    percentChange, coverage, dedupKeepFirst, List.find?, repCritical,
    fRangeHigh, fCritHigh, FindingOrder]
  norm_num [round_eq, List.filterMap_cons]
  decide

/-- Witness for C1 at the concrete critical glucose request. -/
theorem C1_witness : ∃ f ∈ repCritical.findings, f.is_critical = true :=
  ((C1_critical_flag_iff cfgW repoW reqCritical repCritical evaluate_reqCritical).1).mp rfl

/-- C2: for a reading whose value lies outside the critical bounds of its
resolved range, the Critical Value layer emits a finding with is_critical
true and severity in [85, 100]; and whatever the other layers emit, the
report of the evaluation has has_critical_alerts true and overall
severity at least 85. -/
theorem C2_critical_value_dominates (cfg : EngineConfig) (repo : List ReferenceRange)
    (req : EvaluationRequest) (b : BiomarkerReading) (v : ℚ) (r : ResolvedRange)
    (rep : AnomalyReport)
    (hb : b ∈ req.current_readings) (hv : b.value = .num v)
    (hr : lookupRange repo req.patient b.biomarker_type = some r)
    (hcrit : v < r.critical_low ∨ r.critical_high < v)
    (hok : evaluate cfg repo req = .ok rep) :
    (∃ f ∈ criticalValue (some r) b, f.is_critical = true ∧
      85 ≤ f.severity ∧ f.severity ≤ 100) ∧
    rep.has_critical_alerts = true ∧ 85 ≤ rep.overall_severity := by
  have hvr : b.value.toRat = v := by rw [hv]; rfl
  obtain ⟨f, hfmem, hfc, hf85, hf100⟩ :
      ∃ f ∈ criticalValue (some r) b, f.is_critical = true ∧
        85 ≤ f.severity ∧ f.severity ≤ 100 := by
    unfold criticalValue
    dsimp only
    rw [hvr]
    by_cases h1 : v < r.critical_low
    · rw [if_pos h1]
      exact ⟨_, List.mem_singleton.mpr rfl, rfl,
        criticalScaled_ge_85 _ _, criticalScaled_le_100 _ _⟩
    · have h2 : r.critical_high < v := by
        rcases hcrit with h | h
        · exact absurd h h1
        · exact h
      rw [if_neg h1, if_pos h2]
      exact ⟨_, List.mem_singleton.mpr rfl, rfl,
        criticalScaled_ge_85 _ _, criticalScaled_le_100 _ _⟩
  obtain ⟨hrep, -⟩ := evaluate_ok_inv hok
  subst hrep
  have hmem2 : f ∈ readingFindings cfg repo req b := by
    have hr2 : Option.map (resolveFor req.patient) (findEntry repo b.biomarker_type) = some r := hr
    unfold readingFindings
    dsimp only
    rw [hr2]
    exact List.mem_append_left _ (List.mem_append_left _
      (List.mem_append_left _ (List.mem_append_right _ hfmem)))
  have hmemAll : f ∈ allFindings cfg repo req := layer_mem_allFindings hb hmem2
  refine ⟨⟨f, hfmem, hfc, hf85, hf100⟩, ?_, ?_⟩
  · show (allFindings cfg repo req).any (fun g => g.is_critical) = true
    exact List.any_eq_true.mpr ⟨f, hmemAll, hfc⟩
  · exact le_trans hf85 (overall_ge_of_critical_mem hmemAll hfc)

/-- Witness for C2 at the concrete critical glucose request. -/
theorem C2_witness :
    repCritical.has_critical_alerts = true ∧ 85 ≤ repCritical.overall_severity :=
  (C2_critical_value_dominates cfgW repoW reqCritical ⟨"glucose", .num 400, "mg/dL", 0⟩
    400 ⟨70, 100, 40, 300⟩ repCritical (List.mem_singleton.mpr rfl) rfl (by decide)
    (Or.inr (by norm_num)) evaluate_reqCritical).2

/-- C3: the Range Check layer emits no finding when the reference range
is unknown or the value lies inside the normal band; when the range is
known and the value lies outside, it emits exactly one finding whose
severity is min(100, round(100 * excess / band_width)), where excess is
the distance past the violated boundary and band_width the width of the
normal band. -/
theorem C3_range_check_formula (r : ResolvedRange) (b : BiomarkerReading) (v : ℚ)
    (hv : b.value = .num v) :
    (rangeCheck none b = []) ∧
    (r.normal_min ≤ v → v ≤ r.normal_max → rangeCheck (some r) b = []) ∧
    (r.normal_min < r.normal_max → r.normal_max < v →
      ∃ f, rangeCheck (some r) b = [f] ∧
        (f.severity : ℤ) =
          min 100 (round (100 * (v - r.normal_max) / (r.normal_max - r.normal_min)))) ∧
    (r.normal_min < r.normal_max → v < r.normal_min →
      ∃ f, rangeCheck (some r) b = [f] ∧
        (f.severity : ℤ) =
          min 100 (round (100 * (r.normal_min - v) / (r.normal_max - r.normal_min)))) := by
  have hvr : b.value.toRat = v := by rw [hv]; rfl
  refine ⟨rfl, ?_, ?_, ?_⟩
  · intro h1 h2
    unfold rangeCheck
    dsimp only
    rw [hvr, if_neg (not_lt.mpr h1), if_neg (not_lt.mpr h2)]
  · intro hband hhigh
    unfold rangeCheck
    dsimp only
    rw [hvr, if_neg (not_lt.mpr (le_of_lt (lt_trans hband hhigh))), if_pos hhigh]
    exact ⟨_, rfl, scaledSeverity_cast (by linarith) (by linarith)⟩
  · intro hband hlow
    unfold rangeCheck
    dsimp only
    rw [hvr, if_pos hlow]
    exact ⟨_, rfl, scaledSeverity_cast (by linarith) (by linarith)⟩

/-- Witness for C3 at the concrete glucose 400 reading. -/
theorem C3_witness :
    ∃ f, rangeCheck (some ⟨70, 100, 40, 300⟩) ⟨"glucose", RawValue.num 400, "mg/dL", 0⟩ = [f] ∧
      (f.severity : ℤ) = min 100 (round ((100 : ℚ) * (400 - 100) / (100 - 70))) :=
  ((C3_range_check_formula ⟨70, 100, 40, 300⟩ ⟨"glucose", RawValue.num 400, "mg/dL", 0⟩
    400 rfl).2.2.1) (by norm_num) (by norm_num)

/-- C5: the engine is a deterministic function of its input.  Evaluated
inside any ambient world (clock and randomness), the report does not
depend on the world, and evaluating the identical request twice in
sequence yields identical reports. -/
theorem C5_determinism (cfg : EngineConfig) (repo : List ReferenceRange)
    (req : EvaluationRequest) (w1 w2 : World) :
    (evaluateInWorld cfg repo req w1).1 = (evaluateInWorld cfg repo req w2).1 ∧
    (evaluateInWorld cfg repo req ((evaluateInWorld cfg repo req w1).2)).1 =
      (evaluateInWorld cfg repo req w1).1 :=
  ⟨rfl, rfl⟩

/-- C4: for a non-empty findings list the aggregator yields the maximum
critical severity when any finding is critical (the result is one
critical finding's severity and bounds all of them); otherwise it is the
rounded weighted average with weight 1.0 per finding except 1.5 for Trend
and Comorbidity findings; and the report carries exactly the input
findings, ordered by severity descending with ties broken by lower layer
id first. -/
theorem C4_aggregator (fs : List LayerFinding) (_hne : fs ≠ []) :
    ((∃ f ∈ fs, f.is_critical = true) →
      ∃ g ∈ fs, g.is_critical = true ∧ overallSeverity fs = g.severity ∧
        ∀ h ∈ fs, h.is_critical = true → h.severity ≤ overallSeverity fs) ∧
    ((∀ f ∈ fs, f.is_critical = false) →
      ((overallSeverity fs : ℤ) = round (weightedSum fs / weightTotal fs) ∧
        ∀ f ∈ fs, findingWeight f =
          if f.layer_id = 5 ∨ f.layer_id = 6 then (3 : ℚ) / 2 else 1)) ∧
    List.Perm (aggregate fs).findings fs ∧
    List.Sorted FindingOrder (aggregate fs).findings := by
  refine ⟨?_, ?_, ?_, ?_⟩
  · rintro ⟨f, hf, hc⟩
    have hany : fs.any (fun g => g.is_critical) = true := List.any_eq_true.mpr ⟨f, hf, hc⟩
    have hnil : criticalSeverities fs ≠ [] := by
      intro h0
      have hmem := severity_mem_criticalSeverities hf hc
      rw [h0] at hmem
      cases hmem
    obtain ⟨g, hgf, hgs⟩ := List.mem_map.mp (foldr_max_mem hnil)
    have hgmem : g ∈ fs := (List.mem_filter.mp hgf).1
    have hgc : g.is_critical = true := by simpa using (List.mem_filter.mp hgf).2
    refine ⟨g, hgmem, hgc, ?_, fun h hm hcrit => overall_ge_of_critical_mem hm hcrit⟩
    unfold overallSeverity
    rw [if_pos hany]
    exact hgs.symm
  · intro hall
    have hany : fs.any (fun g => g.is_critical) = false := by
      rw [List.any_eq_false]
      intro f hf
      simp [hall f hf]
    constructor
    · have hov : overallSeverity fs = (round (weightedSum fs / weightTotal fs)).toNat := by
        unfold overallSeverity
        rw [hany]
        simp
      rw [hov]
      exact Int.toNat_of_nonneg
        (round_nonneg_rat (div_nonneg (weightedSum_nonneg fs) (weightTotal_nonneg fs)))
    · intro f _
      rfl
  · show List.Perm (sortFindings fs) fs
    exact List.perm_insertionSort FindingOrder fs
  · show List.Sorted FindingOrder (sortFindings fs)
    exact List.sorted_insertionSort FindingOrder fs

/-- Witness for C4 at a concrete one-element findings list. -/
theorem C4_witness :
    ∃ g ∈ [fCritHigh], g.is_critical = true ∧ overallSeverity [fCritHigh] = g.severity ∧
      ∀ h ∈ [fCritHigh], h.is_critical = true → h.severity ≤ overallSeverity [fCritHigh] :=
  (C4_aggregator [fCritHigh] (by simp)).1 ⟨fCritHigh, List.mem_singleton.mpr rfl, rfl⟩

/-- The Range Check finding shared by both monotonicity requests. -/
def fM1 : LayerFinding :=
  { layer_id := 1, title := "Above normal range", severity := 100,
    is_critical := false, affected_biomarker := some "marker_a",
    message := "Value is above the normal range",
    recommendation := some "Discuss this result with your physician",
    confidence := .high }

/-- The Critical Value finding of the second monotonicity request. -/
def fM2 : LayerFinding :=
  { layer_id := 2, title := "Critical high value", severity := 87,
    is_critical := true, affected_biomarker := some "marker_a",
    message := "Value is above the critical threshold",
    recommendation := some "Seek immediate medical attention",
    confidence := .high }

/-- The report for the first monotonicity request: one non-critical
finding of severity 100, overall severity 100. -/
def repM1 : AnomalyReport :=
  { overall_severity := 100, has_critical_alerts := false,
    findings := [fM1],
    priority_actions := ["Discuss this result with your physician"] }

/-- The report for the second monotonicity request: the same Range Check
finding plus a new critical finding of severity 87; aggregation switches
to the maximum critical severity, so overall severity drops to 87. -/
def repM2 : AnomalyReport :=
  { overall_severity := 87, has_critical_alerts := true,
    findings := [fM1, fM2],
    priority_actions := ["Discuss this result with your physician",
                         "Seek immediate medical attention"] }

theorem evaluate_reqM1 : evaluate cfgW repoM reqM1 = .ok repM1 := by
  simp [evaluate, cfgW, repoM, reqM1, patientW, isInvalidReading, allFindings,
    readingFindings, findEntry, resolveFor, rangeCheck, criticalValue, ageAdjusted,
    medicationContext, trendAnalysis, comorbidityLayer, abnormalBiomarkers, histFor,
    aggregate, overallSeverity, criticalSeverities, sortFindings, weightedSum,
    weightTotal, findingWeight, scaledSeverity, criticalScaled, RawValue.toRat,
    percentChange, coverage, dedupKeepFirst, List.find?, repM1, fM1, FindingOrder]
  norm_num [round_eq, List.filterMap_cons, findingWeight, fM1]
  rfl

theorem evaluate_reqM2 : evaluate cfgW repoM reqM2 = .ok repM2 := by
  simp [evaluate, cfgW, repoM, reqM2, patientW, isInvalidReading, allFindings,
    readingFindings, findEntry, resolveFor, rangeCheck, criticalValue, ageAdjusted,
    medicationContext, trendAnalysis, comorbidityLayer, abnormalBiomarkers, histFor,
    aggregate, overallSeverity, criticalSeverities, sortFindings, weightedSum,
    weightTotal, findingWeight, scaledSeverity, criticalScaled, RawValue.toRat,
    percentChange, coverage, dedupKeepFirst, List.find?, repM2, fM1, fM2, FindingOrder]
  norm_num [round_eq, List.filterMap_cons]
  decide

/-- C6 counterexample: the requests reqM1 and reqM2 differ only in the
single marker_a reading, whose value moves from 50 to 101, increasing its
distance past normal_max 10.  The first report contains no critical
finding, so no critical finding disappears, yet overall severity drops
from 100 to 87: the newly appearing critical finding of severity 87
makes aggregation switch to the maximum critical severity.  The maximum
individual finding severity is 100 in both reports, so overall severity
is also not monotone in the maximum individual finding severity. -/
theorem C6_counterexample :
    evaluate cfgW repoM reqM1 = .ok repM1 ∧
    evaluate cfgW repoM reqM2 = .ok repM2 ∧
    repM1.findings.all (fun f => !f.is_critical) = true ∧
    repM2.overall_severity < repM1.overall_severity :=
  ⟨evaluate_reqM1, evaluate_reqM2, rfl, by norm_num [repM1, repM2]⟩

/-- C6 amended: increasing a single reading's distance past normal_max
never decreases that reading's Range Check severity; and overall severity
never decreases when one finding's severity increases while its layer,
its criticality flag and all other findings stay unchanged.  The original
clause - that overall severity can only decrease when a critical finding
disappears - fails: a newly appearing critical finding can lower it (see
the counterexample). -/
theorem C6_amended_monotonicity :
    (∀ (r : ResolvedRange) (b1 b2 : BiomarkerReading) (v1 v2 : ℚ),
      b1.value = .num v1 → b2.value = .num v2 →
      r.normal_min < r.normal_max → r.normal_max < v1 → v1 ≤ v2 →
      rangeSeverity (some r) b1 ≤ rangeSeverity (some r) b2) ∧
    (∀ (l r : List LayerFinding) (f : LayerFinding) (s2 : ℕ),
      f.severity ≤ s2 →
      overallSeverity (l ++ f :: r) ≤
        overallSeverity (l ++ { f with severity := s2 } :: r)) := by
  constructor
  · intro r b1 b2 v1 v2 h1 h2 hband hhigh hle
    have hv1 : b1.value.toRat = v1 := by rw [h1]; rfl
    have hv2 : b2.value.toRat = v2 := by rw [h2]; rfl
    have hhigh2 : r.normal_max < v2 := lt_of_lt_of_le hhigh hle
    unfold rangeSeverity rangeCheck
    dsimp only
    rw [hv1, hv2]
    rw [if_neg (not_lt.mpr (le_of_lt (lt_trans hband hhigh))), if_pos hhigh,
      if_neg (not_lt.mpr (le_of_lt (lt_trans hband hhigh2))), if_pos hhigh2]
    simp only [List.map_cons, List.map_nil, List.sum_cons, List.sum_nil, add_zero]
    exact scaledSeverity_mono (by linarith) (by linarith)
  · intro l r f s2 h
    have hcrit_eq : (l ++ f :: r).any (fun g => g.is_critical) =
        (l ++ ({ f with severity := s2 } : LayerFinding) :: r).any
          (fun g => g.is_critical) := by
      simp [List.any_append]
    unfold overallSeverity
    by_cases hc : (l ++ f :: r).any (fun g => g.is_critical) = true
    · rw [if_pos hc, if_pos (hcrit_eq ▸ hc)]
      rw [criticalSeverities_append, criticalSeverities_append,
        criticalSeverities_cons, criticalSeverities_cons,
        foldr_max_append, foldr_max_append, foldr_max_append, foldr_max_append]
      have hflag : ({ f with severity := s2 } : LayerFinding).is_critical =
          f.is_critical := rfl
      have hmid : ((if f.is_critical then [f.severity] else []).foldr max 0) ≤
          ((if ({ f with severity := s2 } : LayerFinding).is_critical then
              [({ f with severity := s2 } : LayerFinding).severity]
            else []).foldr max 0) := by
        rw [hflag]
        by_cases hfc : f.is_critical = true
        · simp only [hfc, if_true, List.foldr_cons, List.foldr_nil]
          omega
        · simp only [Bool.not_eq_true] at hfc
          simp [hfc]
      exact max_le_max (le_refl _) (max_le_max hmid (le_refl _))
    · have hc2 : ¬((l ++ ({ f with severity := s2 } : LayerFinding) :: r).any
          (fun g => g.is_critical) = true) := by
        rw [← hcrit_eq]
        exact hc
      rw [if_neg hc, if_neg hc2]
      apply Int.toNat_le_toNat
      apply round_mono_rat
      have hwt : weightTotal (l ++ ({ f with severity := s2 } : LayerFinding) :: r) =
          weightTotal (l ++ f :: r) := by
        rw [weightTotal_append, weightTotal_append, weightTotal_cons, weightTotal_cons]
        rfl
      have hws : weightedSum (l ++ f :: r) ≤
          weightedSum (l ++ ({ f with severity := s2 } : LayerFinding) :: r) := by
        rw [weightedSum_append, weightedSum_append, weightedSum_cons, weightedSum_cons]
        have hmul : findingWeight f * (f.severity : ℚ) ≤
            findingWeight f * ((s2 : ℕ) : ℚ) := by
          apply mul_le_mul_of_nonneg_left ?_ (findingWeight_nonneg f)
          exact_mod_cast h
        have hwf : findingWeight ({ f with severity := s2 } : LayerFinding) =
            findingWeight f := rfl
        rw [hwf]
        have hsev : (({ f with severity := s2 } : LayerFinding).severity : ℚ) =
            ((s2 : ℕ) : ℚ) := rfl
        rw [hsev]
        linarith
      rw [hwt]
      exact div_le_div_of_nonneg_right hws (weightTotal_nonneg _)

/-- Witness for the amended C6 at concrete inputs: the Range Check
severity at value 20 is at most the one at value 30, and raising a lone
finding's severity from 80 to 90 does not lower the overall severity. -/
theorem C6_witness :
    rangeSeverity (some ⟨0, 10, -1000, 1000⟩) ⟨"marker_a", RawValue.num 20, "u", 0⟩ ≤
      rangeSeverity (some ⟨0, 10, -1000, 1000⟩) ⟨"marker_a", RawValue.num 30, "u", 0⟩ ∧
    overallSeverity ([] ++ fM1 :: []) ≤
      overallSeverity ([] ++ { fM1 with severity := 100 } :: []) :=
  ⟨C6_amended_monotonicity.1 ⟨0, 10, -1000, 1000⟩ ⟨"marker_a", RawValue.num 20, "u", 0⟩
      ⟨"marker_a", RawValue.num 30, "u", 0⟩ 20 30 rfl rfl (by norm_num) (by norm_num)
      (by norm_num),
    C6_amended_monotonicity.2 [] [] fM1 100 (by norm_num [fM1])⟩

/-- C8: a request containing an invalid reading (NaN or a negative
concentration) is rejected whole: the orchestrator returns an
InvalidReading error naming an offending reading of the request, and no
report is produced, so no partial evaluation of the malformed record
occurs. -/
theorem C8_invalid_reading_rejected (cfg : EngineConfig) (repo : List ReferenceRange)
    (req : EvaluationRequest) (b : BiomarkerReading)
    (hb : b ∈ req.current_readings) (hbad : isInvalidReading cfg b = true) :
    ∃ b0, evaluate cfg repo req = .error (.invalidReading b0) ∧
      b0 ∈ req.current_readings ∧ isInvalidReading cfg b0 = true := by
  cases hf : req.current_readings.find? (fun x => isInvalidReading cfg x) with
  | none =>
    have := List.find?_eq_none.mp hf b hb
    simp [hbad] at this
  | some b0 =>
    refine ⟨b0, ?_, List.mem_of_find?_eq_some hf, List.find?_some hf⟩
    simp [evaluate, hf]

/-- Witness for C8 at the concrete NaN request. -/
theorem C8_witness :
    ∃ b0, evaluate cfgW repoW reqNan = .error (.invalidReading b0) ∧
      b0 ∈ reqNan.current_readings ∧ isInvalidReading cfgW b0 = true :=
  C8_invalid_reading_rejected cfgW repoW reqNan ⟨"glucose", .nan, "mg/dL", 0⟩
    (by decide) (by decide)

/-- C7: a biomarker type missing from the repository does not fail the
evaluation: an otherwise valid request still yields a complete report,
no range-dependent layer (every layer except Trend, layer 5) emits a
finding for that biomarker, and the biomarker is recorded among those
with insufficient reference data. -/
theorem C7_missing_reference_data (cfg : EngineConfig) (repo : List ReferenceRange)
    (req : EvaluationRequest) (bt : String)
    (hvalid : ∀ b ∈ req.current_readings, isInvalidReading cfg b = false)
    (hmiss : findEntry repo bt = none)
    (hread : ∃ b ∈ req.current_readings, b.biomarker_type = bt) :
    ∃ rep, evaluate cfg repo req = .ok rep ∧
      (∀ f ∈ rep.findings, f.layer_id ≠ 5 → f.affected_biomarker ≠ some bt) ∧
      bt ∈ insufficientDataBiomarkers repo req := by
  have hfind : req.current_readings.find? (fun b => isInvalidReading cfg b) = none := by
    rw [List.find?_eq_none]
    intro b hb
    simp [hvalid b hb]
  refine ⟨aggregate (allFindings cfg repo req), ?_, ?_, ?_⟩
  · unfold evaluate
    rw [hfind]
  · intro f hf hlayer
    have hfs : f ∈ allFindings cfg repo req := mem_aggregate_findings.mp hf
    unfold allFindings at hfs
    dsimp only at hfs
    rcases List.mem_append.mp hfs with hbase | hcom
    · obtain ⟨l, hl, hfl⟩ := List.mem_flatten.mp hbase
      obtain ⟨b, hbmem, rfl⟩ := List.mem_map.mp hl
      by_cases hbt : b.biomarker_type = bt
      · rw [← hbt] at hmiss
        exact absurd (readingFindings_of_noEntry hmiss hfl) hlayer
      · rw [readingFindings_affected hfl]
        intro hcontra
        exact hbt (Option.some.inj hcontra)
    · rw [(comorbidityLayer_shape hcom).1]
      simp
  · obtain ⟨b, hb, hbt⟩ := hread
    unfold insufficientDataBiomarkers
    apply List.mem_map.mpr
    refine ⟨b, ?_, hbt⟩
    apply List.mem_filter.mpr
    refine ⟨hb, ?_⟩
    simp [hbt, hmiss]

/-- Witness for C7 at the concrete unknown-biomarker request. -/
theorem C7_witness :
    ∃ rep, evaluate cfgW repoW reqUnknown = .ok rep ∧
      (∀ f ∈ rep.findings, f.layer_id ≠ 5 → f.affected_biomarker ≠ some "xyz_marker") ∧
      "xyz_marker" ∈ insufficientDataBiomarkers repoW reqUnknown :=
  C7_missing_reference_data cfgW repoW reqUnknown "xyz_marker" (by decide) (by decide)
    ⟨⟨"xyz_marker", RawValue.num 5, "units", 0⟩, List.mem_singleton.mpr rfl, rfl⟩

/-- C9: in cache.ts, set followed by get on the same store and key
returns exactly the stored data when no TTL was given or the TTL has not
yet elapsed; once the expiry time has passed, get returns null and
deletes the entry; and an entry stored without a TTL never expires,
whatever the read time. -/
theorem C9_cache_roundtrip {α : Type} (s : CacheState α) (storeName key : String)
    (d : α) (now now2 : ℕ) :
    ((cacheGet (cacheSet s storeName key d now none) storeName key now2).1 = some d) ∧
    (∀ t : ℕ, t ≠ 0 → now2 ≤ now + t →
      (cacheGet (cacheSet s storeName key d now (some t)) storeName key now2).1 = some d) ∧
    (∀ t : ℕ, t ≠ 0 → now + t < now2 →
      (cacheGet (cacheSet s storeName key d now (some t)) storeName key now2).1 = none ∧
      (cacheGet (cacheSet s storeName key d now (some t)) storeName key now2).2
        storeName key = none) := by
  have hput : ∀ ttl : Option ℕ,
      (cacheSet s storeName key d now ttl) storeName key =
        some ⟨key, d, now, mkExpiresAt now ttl⟩ := by
    intro ttl
    unfold cacheSet cachePut
    simp
  refine ⟨?_, ?_, ?_⟩
  · simp [cacheGet, hput none, isExpired, mkExpiresAt]
  · intro t ht h2
    have hnl : ¬(now + t < now2) := Nat.not_lt.mpr h2
    simp [cacheGet, hput (some t), isExpired, mkExpiresAt, ht, hnl]
  · intro t ht h2
    constructor
    · simp [cacheGet, hput (some t), isExpired, mkExpiresAt, ht, h2]
    · simp [cacheGet, hput (some t), isExpired, mkExpiresAt, ht, h2, cacheDelete]

/-- Witness for C9 on a concrete state: store the value 7 under one key,
read it back before and after expiry. -/
theorem C9_witness :
    (cacheGet (cacheSet (emptyCache ℕ) "records" "all_records" 7 100 none)
      "records" "all_records" 999).1 = some 7 ∧
    (cacheGet (cacheSet (emptyCache ℕ) "records" "all_records" 7 100 (some 50))
      "records" "all_records" 120).1 = some 7 ∧
    (cacheGet (cacheSet (emptyCache ℕ) "records" "all_records" 7 100 (some 50))
      "records" "all_records" 200).1 = none ∧
    (cacheGet (cacheSet (emptyCache ℕ) "records" "all_records" 7 100 (some 50))
      "records" "all_records" 200).2 "records" "all_records" = none := by
  have h := C9_cache_roundtrip (emptyCache ℕ) "records" "all_records" 7 100
  exact ⟨(h 999).1, (h 120).2.1 50 (by norm_num) (by norm_num),
    ((h 200).2.2 50 (by norm_num) (by norm_num)).1,
    ((h 200).2.2 50 (by norm_num) (by norm_num)).2⟩

/-- C10: the dashboard helper getStatusFromSeverity returns high exactly
from severity 80 up, moderate exactly on [50, 80), normal exactly below
50; and the alert rendering marks an anomaly highest-urgency exactly when
is_critical is true or severity is at least 80 - a cut-off of 80, not the
85 the engine reserves for critical findings. -/
theorem C10_dashboard_thresholds :
    (∀ s : ℚ, (getStatusFromSeverity s = .high ↔ 80 ≤ s) ∧
      (getStatusFromSeverity s = .moderate ↔ 50 ≤ s ∧ s < 80) ∧
      (getStatusFromSeverity s = .normal ↔ s < 50)) ∧
    (∀ (c : Bool) (s : ℚ), alertStatus c s = .high ↔ (c = true ∨ 80 ≤ s)) := by
  constructor
  · intro s
    unfold getStatusFromSeverity
    refine ⟨?_, ?_, ?_⟩ <;> split_ifs with h1 h2 <;>
      first
      | (simp_all; linarith)
      | simp_all
  · intro c s
    unfold alertStatus
    split_ifs with h1 h2 <;> simp_all

/-- Witness for C10 at concrete severities. -/
theorem C10_witness :
    getStatusFromSeverity 85 = Status.high ∧ alertStatus false 79 ≠ Status.high := by
  constructor
  · exact ((C10_dashboard_thresholds.1 85).1).mpr (by norm_num)
  · intro h
    rcases (C10_dashboard_thresholds.2 false 79).mp h with h1 | h1
    · cases h1
    · norm_num at h1


